import Mathlib

/-
Verification of the proposal-arbitration and turn-orchestration core of the
monopoly multi-agent repository: the advisor vote classifier
(advisors.py, parse_advisor_response), the majority vote aggregation
(monopoly.py, votes.count comparison), the pre-decision game loop
(monopoly.py, the while loop over stop_at_round with two players), the
sequential advisor voting loop, and the single-shot proposal request.
-/

/-- Structured response schema: the Output pydantic model of monopoly.py
(reasoning and decision, both text). -/
structure Output where
  reasoning : String
  decision : String
deriving DecidableEq

/-- An advisor record: the Advisor pydantic model of advisors.py
(a name and a strategy label). -/
structure Advisor where
  name : String
  strategy : String
deriving DecidableEq

/-- Substring containment on character lists, the semantics of the Python
`tok in s` test used by parse_advisor_response: true when tok occurs
contiguously anywhere in s. -/
def hasSubstr (tok : List Char) : List Char → Bool
  | [] => tok.isEmpty
  | c :: rest => tok.isPrefixOf (c :: rest) || hasSubstr tok rest

/-- Per-character lowercasing of a string, the semantics of Python
str.lower (and of String.map Char.toLower) on the ASCII texts involved. -/
def lowercase (s : String) : List Char := s.data.map Char.toLower

/-- advisors.py, parse_advisor_response: lowercase the decision text and
return true when it contains "approve", "accept" or "yes" as a substring,
false otherwise. -/
def parse_advisor_response (response : Output) : Bool :=
  let decision := lowercase response.decision
  hasSubstr "approve".data decision ||
    hasSubstr "accept".data decision ||
    hasSubstr "yes".data decision

/-- monopoly.py, lines 262 to 265: the proposal is accepted exactly when
votes.count(True) > votes.count(False). -/
def aggregate (votes : List Bool) : Bool :=
  decide (votes.count true > votes.count false)

/-- hasSubstr decides list-infix containment. -/
theorem hasSubstr_iff (tok : List Char) (s : List Char) :
    hasSubstr tok s = true ↔ tok <:+: s := by
  induction s with
  | nil =>
    simp [hasSubstr, List.isEmpty_iff, List.infix_nil]
  | cons c rest ih =>
    rw [hasSubstr, Bool.or_eq_true, List.isPrefixOf_iff_prefix, ih, List.infix_cons_iff]

/-- C1: a decision text classifies as an approving vote (true) exactly when
its lowercasing contains one of the affirmative tokens "approve", "accept" or
"yes" as a substring, and classifies false otherwise; in particular
"Yes, I approve this trade" classifies true while "No, this is too risky" and
"Not sure, maybe" classify false. -/
theorem C1_vote_classification :
    (∀ r : Output,
      parse_advisor_response r = true ↔
        ("approve".data <:+: lowercase r.decision ∨
         "accept".data <:+: lowercase r.decision ∨
         "yes".data <:+: lowercase r.decision)) ∧
    parse_advisor_response { reasoning := "", decision := "Yes, I approve this trade" } = true ∧
    parse_advisor_response { reasoning := "", decision := "No, this is too risky" } = false ∧
    parse_advisor_response { reasoning := "", decision := "Not sure, maybe" } = false := by
  refine ⟨?_, by decide, by decide, by decide⟩
  intro r
  simp only [parse_advisor_response, Bool.or_eq_true, hasSubstr_iff]
  tauto

/-- C2: with a approvals and r rejections the aggregation accepts exactly when
a > r; whenever a ≤ r, the tie included, the proposal is rejected. -/
theorem C2_majority_rule (votes : List Bool) (a r : Nat)
    (ha : votes.count true = a) (hr : votes.count false = r) :
    (aggregate votes = true ↔ a > r) ∧ (a ≤ r → aggregate votes = false) := by
  subst ha
  subst hr
  refine ⟨by simp [aggregate], fun h => ?_⟩
  simp only [aggregate, decide_eq_false_iff_not]
  omega

/-- C2 witness: one approval against two rejections is rejected. -/
theorem C2_majority_rule_witness :
    ([true, false, false] : List Bool).count true = 1 ∧
    ([true, false, false] : List Bool).count false = 2 ∧
    ((aggregate [true, false, false] = true ↔ 1 > 2) ∧
      (1 ≤ 2 → aggregate [true, false, false] = false)) :=
  ⟨by decide, by decide, C2_majority_rule [true, false, false] 1 2 (by decide) (by decide)⟩

/-- C7: the aggregation is order-independent: permuting the vote list never
changes the verdict. -/
theorem C7_aggregate_perm_invariant (v1 v2 : List Bool) (h : v1.Perm v2) :
    aggregate v1 = aggregate v2 := by
  simp [aggregate, h.count_eq]

/-- C7 witness: swapping the first two votes leaves the verdict unchanged. -/
theorem C7_aggregate_perm_invariant_witness :
    aggregate [false, true, true] = aggregate [true, false, true] :=
  C7_aggregate_perm_invariant _ _ (List.Perm.swap true false [true])

/-- C8: the classifier is a pure substring test: any decision text whose
lowercasing contains an affirmative token anywhere, also inside a negation
such as "No, I do not approve" or inside another word such as "eyes",
classifies as approving; surrounding negative wording never overrides a
matched token. -/
theorem C8_substring_overrides_context :
    (∀ r : Output,
      ("approve".data <:+: lowercase r.decision ∨
       "accept".data <:+: lowercase r.decision ∨
       "yes".data <:+: lowercase r.decision) →
      parse_advisor_response r = true) ∧
    parse_advisor_response { reasoning := "", decision := "No, I do not approve" } = true ∧
    parse_advisor_response { reasoning := "", decision := "eyes" } = true := by
  refine ⟨fun r h => ?_, by decide, by decide⟩
  simp only [parse_advisor_response, Bool.or_eq_true, hasSubstr_iff]
  tauto

/-- C8 witness: "eyes" contains "yes", hence classifies as approving. -/
theorem C8_substring_overrides_context_witness :
    parse_advisor_response { reasoning := "", decision := "eyes" } = true :=
  C8_substring_overrides_context.1 { reasoning := "", decision := "eyes" }
    (Or.inr (Or.inr ((hasSubstr_iff "yes".data (lowercase "eyes")).mp (by decide))))

/-- C10: the empty vote list aggregates to a rejected verdict: zero approvals
are not strictly more than zero rejections; aggregate is a total function, so
no error and no quorum check occurs on the empty list. -/
theorem C10_empty_votes_rejected : aggregate [] = false := by decide

/-- The interface the pre-decision loop of monopoly.py uses from the external
monosim engine: one play step per player and one loss test per player, over an
abstract game state. The script has exactly two players (player1 and player2),
iterated in that order by the for loop. -/
structure GameEngine (σ : Type) where
  play1 : σ → σ
  play2 : σ → σ
  hasLost1 : σ → Bool
  hasLost2 : σ → Bool

/-- One full round of the loop body, monopoly.py lines 193 to 194: the for
loop plays player1 then player2, with no loss test in between. -/
def playRound (eng : GameEngine σ) (s : σ) : σ := eng.play2 (eng.play1 s)

/-- monopoly.py line 189: the configured number of rounds to play before the
decision checkpoint. -/
def stop_at_round : Nat := 5

/-- monopoly.py lines 191 to 195: while neither player has lost and the round
index is below the bound, play one round and advance the index. -/
def gameLoop (eng : GameEngine σ) (stopAtRound : Nat) (s : σ) (idx : Nat) : σ :=
  if h : (eng.hasLost1 s = false ∧ eng.hasLost2 s = false) ∧ idx < stopAtRound then
    gameLoop eng stopAtRound (playRound eng s) (idx + 1)
  else s
termination_by stopAtRound - idx
decreasing_by
  exact Nat.sub_succ_lt_self stopAtRound idx h.2

/-- Instrumented engine over the same dynamics that additionally counts the
individual play calls, for stating the ten-play property. -/
def withPlayCount (eng : GameEngine σ) : GameEngine (σ × Nat) where
  play1 := fun p => (eng.play1 p.1, p.2 + 1)
  play2 := fun p => (eng.play2 p.1, p.2 + 1)
  hasLost1 := fun p => eng.hasLost1 p.1
  hasLost2 := fun p => eng.hasLost2 p.1

theorem gameLoop_step (eng : GameEngine σ) (stop idx : Nat) (s : σ)
    (h1 : eng.hasLost1 s = false) (h2 : eng.hasLost2 s = false) (hidx : idx < stop) :
    gameLoop eng stop s idx = gameLoop eng stop (playRound eng s) (idx + 1) := by
  rw [gameLoop, dif_pos ⟨⟨h1, h2⟩, hidx⟩]

theorem gameLoop_exit (eng : GameEngine σ) (stop idx : Nat) (s : σ)
    (h : ¬ ((eng.hasLost1 s = false ∧ eng.hasLost2 s = false) ∧ idx < stop)) :
    gameLoop eng stop s idx = s := by
  rw [gameLoop, dif_neg h]

/-- When no loss condition holds at any round boundary the loop inspects, the
loop runs the remaining rounds exactly. -/
theorem gameLoop_eq_iterate (eng : GameEngine σ) (stop : Nat) :
    ∀ (n idx : Nat) (s : σ), idx + n = stop →
      (∀ k, k < n →
        eng.hasLost1 ((playRound eng)^[k] s) = false ∧
        eng.hasLost2 ((playRound eng)^[k] s) = false) →
      gameLoop eng stop s idx = (playRound eng)^[n] s := by
  intro n
  induction n with
  | zero =>
    intro idx s hidx _
    exact gameLoop_exit eng stop idx s (by omega)
  | succ n ih =>
    intro idx s hidx hcond
    have h0 := hcond 0 (Nat.succ_pos n)
    rw [Function.iterate_zero_apply] at h0
    rw [gameLoop_step eng stop idx s h0.1 h0.2 (by omega)]
    rw [ih (idx + 1) (playRound eng s) (by omega) ?_]
    · rw [← Function.iterate_succ_apply]
    · intro k hk
      rw [← Function.iterate_succ_apply]
      exact hcond (k + 1) (by omega)

theorem playRound_withPlayCount (eng : GameEngine σ) (p : σ × Nat) :
    playRound (withPlayCount eng) p = (playRound eng p.1, p.2 + 2) := rfl

theorem iterate_withPlayCount (eng : GameEngine σ) :
    ∀ (n : Nat) (s : σ) (m : Nat),
      (playRound (withPlayCount eng))^[n] (s, m) = ((playRound eng)^[n] s, m + 2 * n) := by
  intro n
  induction n with
  | zero => intro s m; simp
  | succ n ih =>
    intro s m
    rw [Function.iterate_succ_apply, playRound_withPlayCount,
      Function.iterate_succ_apply]
    rw [ih (playRound eng s) (m + 2)]
    have : m + 2 + 2 * n = m + 2 * (n + 1) := by omega
    rw [this]

/-- monopoly.py line 217: the primary proposal request is a single call of
structured_llm.invoke with no retry loop and no timeout guard. The external
collaborator is modelled as a function from attempt index to a fallible
structured response, so a retry policy could be expressed over it; the code
performs exactly the first attempt and returns its result unchanged. -/
def requestDecision (collab : Nat → Except ε Output) : Except ε Output :=
  collab 0

/-- The observed decision cycle up to the proposal: monopoly.py runs the
pre-decision loop with stop_at_round rounds starting at round index 0, then
unconditionally issues the proposal request on the resulting state. -/
def runCycle (eng : GameEngine σ) (collab : Nat → Except ε Output) (s0 : σ) :
    σ × Except ε Output :=
  (gameLoop eng stop_at_round s0 0, requestDecision collab)

/-- C5: configured for 5 rounds with 2 players, if no player is in a lost
state at any round boundary the loop inspects, the pre-decision loop performs
exactly 5 full round advances, hence exactly 10 individual play calls, and the
cycle then issues the proposal request to the collaborator. -/
theorem C5_five_rounds {σ ε : Type} (eng : GameEngine σ) (s0 : σ)
    (collab : Nat → Except ε Output)
    (h : ∀ k, k < stop_at_round →
      eng.hasLost1 ((playRound eng)^[k] s0) = false ∧
      eng.hasLost2 ((playRound eng)^[k] s0) = false) :
    runCycle eng collab s0 = ((playRound eng)^[5] s0, collab 0) ∧
    (gameLoop (withPlayCount eng) stop_at_round (s0, 0) 0).2 = 10 := by
  constructor
  · unfold runCycle requestDecision
    rw [gameLoop_eq_iterate eng stop_at_round 5 0 s0 rfl h]
  · have hcount : ∀ k, k < stop_at_round →
        (withPlayCount eng).hasLost1 ((playRound (withPlayCount eng))^[k] (s0, 0)) = false ∧
        (withPlayCount eng).hasLost2 ((playRound (withPlayCount eng))^[k] (s0, 0)) = false := by
      intro k hk
      rw [iterate_withPlayCount]
      exact h k hk
    rw [gameLoop_eq_iterate (withPlayCount eng) stop_at_round 5 0 (s0, 0) rfl hcount]
    rw [iterate_withPlayCount]

/-- A concrete two-player engine in which nobody ever loses, for witnessing
the five-round run. -/
def natEngine : GameEngine Nat where
  play1 := fun n => n + 1
  play2 := fun n => n + 1
  hasLost1 := fun _ => false
  hasLost2 := fun _ => false

/-- C5 witness: on the loss-free engine the cycle runs 5 rounds (the state
advances by 10 play steps of one each) and requests the proposal, and the
play counter reads 10. -/
theorem C5_five_rounds_witness :
    runCycle natEngine
        (fun _ => (Except.ok { reasoning := "r", decision := "yes" } : Except Unit Output)) 0 =
      (10, Except.ok { reasoning := "r", decision := "yes" }) ∧
    (gameLoop (withPlayCount natEngine) stop_at_round ((0 : Nat), 0) 0).2 = 10 :=
  C5_five_rounds natEngine 0 _ (fun _ _ => ⟨rfl, rfl⟩)

/-- C9: loss conditions are inspected only at round boundaries: if the loop
enters a round (nobody lost, index below the bound) and player 1 is already in
a lost state right after their own play, player 2 still plays that round, and
the loop then exits at the boundary, returning the state in which both players
played. -/
theorem C9_loss_checked_at_boundaries (eng : GameEngine σ) (stop idx : Nat) (s : σ)
    (h1 : eng.hasLost1 s = false) (h2 : eng.hasLost2 s = false) (hidx : idx < stop)
    (hmid : eng.hasLost1 (eng.play1 s) = true)
    (hend : eng.hasLost1 (eng.play2 (eng.play1 s)) = true) :
    gameLoop eng stop s idx = eng.play2 (eng.play1 s) := by
  rw [gameLoop_step eng stop idx s h1 h2 hidx]
  exact gameLoop_exit eng stop (idx + 1) (playRound eng s) (by
    intro hcontra
    rw [playRound] at hcontra
    rw [hend] at hcontra
    simp at hcontra)

/-- A concrete engine in which player 1 is lost as soon as the state is
positive, for witnessing the boundary-only loss check. -/
def loserEngine : GameEngine Nat where
  play1 := fun n => n + 1
  play2 := fun n => n + 10
  hasLost1 := fun n => Nat.ble 1 n
  hasLost2 := fun _ => false

/-- C9 witness: from state 0, player 1 is lost right after playing (state 1),
yet player 2 still plays (reaching state 11) and the loop exits there. -/
theorem C9_loss_checked_at_boundaries_witness :
    gameLoop loserEngine 5 0 0 = 11 :=
  C9_loss_checked_at_boundaries loserEngine 5 0 0 rfl rfl (by decide) rfl rfl

/-- Error vocabulary used to instantiate concrete failing collaborators. The
source defines no error types of its own: any exception of the external
invocation propagates as-is, so these names only label concrete failures of
the modelled collaborator (a malformed or rejected structured response, or an
expired transport deadline). -/
inductive DecisionError where
  | malformedDecision
  | timeoutExpired
deriving DecidableEq

/-- monopoly.py lines 237 to 258: the sequential advisor loop. For each
advisor in order, invoke the collaborator on the prompt built for that advisor
(the prompt depends only on the advisor, the game state being fixed), parse
the response into a boolean vote, and append it. An invocation failure is an
uncaught exception: it propagates immediately and no further advisor is
evaluated, which the Except monad renders as error propagation. -/
def runAdvisorVotes (invoke : Advisor → Except ε Output) :
    List Advisor → Except ε (List Bool)
  | [] => Except.ok []
  | a :: rest =>
    match invoke a with
    | Except.error e => Except.error e
    | Except.ok response =>
      match runAdvisorVotes invoke rest with
      | Except.error e => Except.error e
      | Except.ok votes => Except.ok (parse_advisor_response response :: votes)

/-- monopoly.py lines 237 to 265: the voting phase of the cycle: collect the
advisor votes, then aggregate them into the verdict; a propagated invocation
failure yields no verdict at all. -/
def runVoteCycle (invoke : Advisor → Except ε Output) (advs : List Advisor) :
    Except ε Bool :=
  match runAdvisorVotes invoke advs with
  | Except.error e => Except.error e
  | Except.ok votes => Except.ok (aggregate votes)

/-- monopoly.py lines 231 to 235: the three advisors of the script. -/
def advisorA : Advisor := { name := "Advisor A", strategy := "Aggressive" }

def advisorB : Advisor := { name := "Advisor B", strategy := "Conservative" }

def advisorC : Advisor := { name := "Advisor C", strategy := "Opportunistic" }

def advisorPanel : List Advisor := [advisorA, advisorB, advisorC]

/-- C3 counterexample: with the three advisors of the script and a
collaborator that fails on every advisor (so every advisor evaluation fails),
the cycle result is the propagated error of the first failed invocation; in
particular it is not a verdict with accepted = false, and the code raises no
error of its own that could mark an all-abstained cycle. -/
theorem C3_counterexample :
    runVoteCycle (fun _ => Except.error DecisionError.malformedDecision) advisorPanel =
      Except.error DecisionError.malformedDecision ∧
    runVoteCycle (fun _ => Except.error DecisionError.malformedDecision) advisorPanel ≠
      Except.ok false := by
  refine ⟨rfl, ?_⟩
  intro h
  exact Except.noConfusion h

/-- C3 (amended): if the first advisor evaluation fails, hence in particular
when every advisor evaluation fails, the failure propagates and aborts the
cycle: the cycle result is that error, no verdict (accepted = false or
otherwise) is produced, and no all-abstained marker distinct from the
propagated error exists in the code. -/
theorem C3_all_failures_abort_cycle {ε} (invoke : Advisor → Except ε Output)
    (a : Advisor) (rest : List Advisor) (e : ε)
    (h : invoke a = Except.error e) :
    runVoteCycle invoke (a :: rest) = Except.error e ∧
    ∀ b : Bool, runVoteCycle invoke (a :: rest) ≠ Except.ok b := by
  have hrun : runVoteCycle invoke (a :: rest) = Except.error e := by
    simp only [runVoteCycle, runAdvisorVotes, h]
  exact ⟨hrun, fun b hb => by rw [hrun] at hb; exact Except.noConfusion hb⟩

/-- C3 witness: the amended statement applied to the script panel and the
everywhere-failing collaborator. -/
theorem C3_all_failures_abort_cycle_witness :
    runVoteCycle (fun _ => Except.error DecisionError.timeoutExpired)
        (advisorA :: [advisorB, advisorC]) =
      Except.error DecisionError.timeoutExpired ∧
    runVoteCycle (fun _ => Except.error DecisionError.timeoutExpired)
        (advisorA :: [advisorB, advisorC]) ≠ Except.ok false :=
  ⟨(C3_all_failures_abort_cycle _ advisorA [advisorB, advisorC]
      DecisionError.timeoutExpired rfl).1,
   (C3_all_failures_abort_cycle _ advisorA [advisorB, advisorC]
      DecisionError.timeoutExpired rfl).2 false⟩

/-- A concrete collaborator that fails exactly on Advisor B and returns an
approving response for the other advisors. -/
def invokeFailB : Advisor → Except DecisionError Output :=
  fun a =>
    if a.name = "Advisor B" then Except.error DecisionError.malformedDecision
    else Except.ok { reasoning := "ok", decision := "approve" }

/-- C4 counterexample: with the script panel and a collaborator failing only
on Advisor B, the voting loop aborts with that failure, so Advisor C (who
would vote, as the second conjunct shows by running the loop without B) never
produces a vote, no abstention entry is recorded, and no accounting of
approve, reject and abstain is reached. -/
theorem C4_counterexample :
    runAdvisorVotes invokeFailB advisorPanel = Except.error DecisionError.malformedDecision ∧
    runAdvisorVotes invokeFailB [advisorA, advisorC] = Except.ok [true, true] := by
  exact ⟨rfl, rfl⟩

/-- C4 (amended): one advisor evaluation failure aborts the evaluations of all
later advisors: if the invocations before advisor b succeed and the invocation
of b fails with e, the loop result is the error e, whatever advisors follow;
no votes and no abstention entries are returned. -/
theorem C4_failure_aborts_rest {ε} (invoke : Advisor → Except ε Output)
    (okPart : List Advisor) (b : Advisor) (post : List Advisor) (e : ε)
    (hok : ∀ a, a ∈ okPart → ∃ out, invoke a = Except.ok out)
    (hb : invoke b = Except.error e) :
    runAdvisorVotes invoke (okPart ++ b :: post) = Except.error e := by
  induction okPart with
  | nil => simp only [List.nil_append, runAdvisorVotes, hb]
  | cons a rest ih =>
    obtain ⟨out, hout⟩ := hok a (List.mem_cons_self a rest)
    have hrest := ih (fun x hx => hok x (List.mem_cons_of_mem a hx))
    simp only [List.cons_append, runAdvisorVotes, hout, List.append_eq, hrest]

/-- C4 witness: the amended statement applied to the script panel split around
Advisor B, with the collaborator failing only on Advisor B. -/
theorem C4_failure_aborts_rest_witness :
    invokeFailB advisorB = Except.error DecisionError.malformedDecision ∧
    runAdvisorVotes invokeFailB ([advisorA] ++ advisorB :: [advisorC]) =
      Except.error DecisionError.malformedDecision :=
  ⟨rfl,
   C4_failure_aborts_rest invokeFailB [advisorA] advisorB [advisorC]
     DecisionError.malformedDecision
     (fun a ha => by
       rw [List.mem_singleton] at ha
       subst ha
       exact ⟨{ reasoning := "ok", decision := "approve" }, rfl⟩)
     rfl⟩

/-- Modelled from the spec: the retry policy the specification prescribes for
the Decision Requester (missing from the source, which performs a single
invocation): attempt the same prompt, and on a failed attempt move to the next
attempt while retries remain, returning the first success or the last failure. -/
def retryFrom (collab : Nat → Except ε Output) : Nat → Nat → Except ε Output
  | attempt, 0 => collab attempt
  | attempt, n + 1 =>
    match collab attempt with
    | Except.ok out => Except.ok out
    | Except.error _ => retryFrom collab (attempt + 1) n

/-- Modelled from the spec: a decision request with up to the given number of
retries beyond the first attempt. -/
def requestWithRetrySpec (retries : Nat) (collab : Nat → Except ε Output) :
    Except ε Output :=
  retryFrom collab 0 retries

/-- A concrete collaborator whose first attempt fails schema validation and
whose later attempts succeed. -/
def flakyCollab : Nat → Except DecisionError Output :=
  fun n =>
    if n = 0 then Except.error DecisionError.malformedDecision
    else Except.ok { reasoning := "r", decision := "approve" }

/-- C6 counterexample: on a collaborator whose first response fails validation
and whose retry would succeed, the code fails immediately with the first
error, while the retry policy of the claim (2 retries) would succeed; so the
request is not retried (and, the request being a single bare invocation, no
timeout bound is installed either). -/
theorem C6_counterexample :
    requestDecision flakyCollab = Except.error DecisionError.malformedDecision ∧
    requestWithRetrySpec 2 flakyCollab =
      Except.ok { reasoning := "r", decision := "approve" } :=
  ⟨rfl, rfl⟩

/-- C6 (amended): every decision request performs exactly one invocation of
the collaborator: a validation failure of the first response propagates
immediately as the error of the request, with no retry, and the request
result depends only on the first attempt (later attempts are never
consulted); the code installs no timeout of its own. -/
theorem C6_single_invocation {ε} (collab : Nat → Except ε Output) (e : ε)
    (h : collab 0 = Except.error e) :
    requestDecision collab = Except.error e ∧
    ∀ collab2 : Nat → Except ε Output, collab2 0 = collab 0 →
      requestDecision collab2 = requestDecision collab := by
  exact ⟨h, fun collab2 h2 => h2⟩

/-- C6 witness: the amended statement applied to the flaky collaborator. -/
theorem C6_single_invocation_witness :
    flakyCollab 0 = Except.error DecisionError.malformedDecision ∧
    requestDecision flakyCollab = Except.error DecisionError.malformedDecision :=
  ⟨rfl, (C6_single_invocation flakyCollab DecisionError.malformedDecision rfl).1⟩
